import Mathlib

/-!
Shallow embedding of the computational core of src/energy_saver.py: the
consumption calculator, the in-memory daily record store with its
upsert-by-date semantics, the analytics over the date-sorted record
sequence, and the rule-based insight generator. Python floats are
modelled as rationals and Python date strings keep their string form.
-/

namespace EnergySaver

/-- Character-by-character lowercasing of a string; mirrors Python
str.lower on the ASCII keys used by the dwelling-size lookup. -/
def lowerStr (s : String) : String := ⟨s.data.map Char.toLower⟩

/-- The energy_map dict of calculate_base_energy together with the
dict.get default of 0 for unknown keys. -/
def energy_map (key : String) : ℚ :=
  if key = "1bhk" then 2 * 0.4 + 2 * 0.8
  else if key = "2bhk" then 3 * 0.4 + 3 * 0.8
  else if key = "3bhk" then 4 * 0.4 + 4 * 0.8
  else 0

/-- Base energy from apartment type: energy_map.get(facility.lower(), 0). -/
def calculate_base_energy (facility : String) : ℚ :=
  energy_map (lowerStr facility)

/-- Fixed per-appliance daily draw: the appliance_consumption dict of
calculate_appliance_energy, with the dict.get default of 0. -/
def appliance_consumption (appliance : String) : ℚ :=
  if appliance = "AC" then 3.0
  else if appliance = "Refrigerator" then 3.0
  else if appliance = "Washing Machine" then 3.0
  else if appliance = "TV" then 0.5
  else if appliance = "Microwave" then 1.5
  else if appliance = "Water Heater" then 2.0
  else if appliance = "Dishwasher" then 2.5
  else if appliance = "Ceiling Fan" then 0.3
  else 0

/-- The keys of the appliance_consumption dict. -/
def applianceCatalog : List String :=
  ["AC", "Refrigerator", "Washing Machine", "TV", "Microwave",
   "Water Heater", "Dishwasher", "Ceiling Fan"]

/-- Sum of the catalog draws of the selected appliances, accumulated
left to right exactly as the Python loop does. -/
def calculate_appliance_energy (appliances : List String) : ℚ :=
  appliances.foldl (fun total appliance => total + appliance_consumption appliance) 0

/-- The four appliances whose draw is rescaled by usage hours. -/
def adjustableAppliances : List String := ["AC", "TV", "Microwave", "Water Heater"]

/-- The base_consumption dict of the usage-hour adjustment loop in main
(total only ever looked up at adjustable appliances; 0 elsewhere). -/
def base_consumption (appliance : String) : ℚ :=
  if appliance = "AC" then 3.0
  else if appliance = "TV" then 0.5
  else if appliance = "Microwave" then 1.5
  else if appliance = "Water Heater" then 2.0
  else 0

/-- The usage-hour adjustment loop of main: starting from the flat
appliance energy, for each (appliance, hours) pair whose appliance is
adjustable, add base_consumption * hours / 8 - base_consumption. -/
def adjust_for_usage_hours (appliance_energy : ℚ) (usage_hours : List (String × ℚ)) : ℚ :=
  usage_hours.foldl
    (fun acc p =>
      if p.1 ∈ adjustableAppliances then
        acc + (base_consumption p.1 * p.2 / 8 - base_consumption p.1)
      else acc)
    appliance_energy

/-- Net adjustment the loop adds on top of the flat appliance energy,
written as a sum over the usage_hours pairs. -/
def usageAdjustment (usage_hours : List (String × ℚ)) : ℚ :=
  (usage_hours.map
    (fun p =>
      if p.1 ∈ adjustableAppliances then
        base_consumption p.1 * p.2 / 8 - base_consumption p.1
      else 0)).sum

/-- One element of st.session_state.energy_data: the dict built by
save_daily_consumption. -/
structure DailyEntry where
  date : String
  base_energy : ℚ
  appliance_energy : ℚ
  total_energy : ℚ
  appliances : List String
  notes : String
  timestamp : String
deriving DecidableEq

/-- Index of the first record whose date equals d: the enumerate loop
of save_daily_consumption. -/
def findExistingIndex (d : String) : List DailyEntry → Option ℕ
  | [] => none
  | r :: rest => if r.date = d then some 0 else (findExistingIndex d rest).map (· + 1)

/-- Upsert of save_daily_consumption: build the entry, replace the
record at the first index holding this date if one exists, otherwise
append the entry at the end. The timestamp argument stands for the
datetime.now() call at save time. -/
def save_daily_consumption (store : List DailyEntry) (date : String)
    (base_energy appliance_energy total_energy : ℚ)
    (appliances : List String) (notes timestamp : String) : List DailyEntry :=
  let entry : DailyEntry :=
    { date := date, base_energy := base_energy, appliance_energy := appliance_energy,
      total_energy := total_energy, appliances := appliances, notes := notes,
      timestamp := timestamp }
  match findExistingIndex date store with
  | some i => store.set i entry
  | none => store ++ [entry]

/-- save_daily_consumption applied to the fields of a prebuilt entry. -/
def saveEntry (store : List DailyEntry) (e : DailyEntry) : List DailyEntry :=
  save_daily_consumption store e.date e.base_energy e.appliance_energy e.total_energy
    e.appliances e.notes e.timestamp

/-- Structural form of the upsert: replace the first record with a
matching date in place, else append. Proved equal to saveEntry below. -/
def saveRec (e : DailyEntry) : List DailyEntry → List DailyEntry
  | [] => [e]
  | r :: rest => if r.date = e.date then e :: rest else r :: saveRec e rest

/-- A sequence of save_daily_consumption calls applied left to right. -/
def runSaves (store : List DailyEntry) : List DailyEntry → List DailyEntry
  | [] => store
  | e :: es => runSaves (saveEntry store e) es

/-- Lexicographic order on character lists, used to compare dates. -/
def charListLe : List Char → List Char → Bool
  | [], _ => true
  | _ :: _, [] => false
  | a :: as, b :: bs => if a < b then true else if b < a then false else charListLe as bs

/-- Date comparison: ISO yyyy-mm-dd strings compare lexicographically
exactly as the underlying calendar dates do, so sorting by this order
models the pandas sort on the parsed datetime column. -/
def dateLe (a b : String) : Bool := charListLe a.data b.data

/-- get_energy_dataframe: the empty frame when no data is stored, else
the records stably sorted by date ascending. -/
def get_energy_dataframe (store : List DailyEntry) : List DailyEntry :=
  if store.isEmpty then []
  else List.insertionSort (fun a b => dateLe a.date b.date = true) store

/-- The total_energy column of a frame. -/
def totalEnergies (df : List DailyEntry) : List ℚ := df.map DailyEntry.total_energy

/-- Arithmetic mean of the total_energy column. -/
def meanTotalEnergy (df : List DailyEntry) : ℚ := (totalEnergies df).sum / df.length

/-- Arithmetic mean of the base_energy column. -/
def meanBaseEnergy (df : List DailyEntry) : ℚ :=
  (df.map DailyEntry.base_energy).sum / df.length

/-- Arithmetic mean of the appliance_energy column. -/
def meanApplianceEnergy (df : List DailyEntry) : ℚ :=
  (df.map DailyEntry.appliance_energy).sum / df.length

/-- Maximum of the total_energy column (bottom on the empty frame). -/
def maxTotalEnergy (df : List DailyEntry) : WithBot ℚ := (totalEnergies df).maximum

/-- Estimated daily cost at the fixed rate of 5 currency units per kWh. -/
def estimatedDailyCost (total_energy : ℚ) : ℚ := total_energy * 5

/-- Monthly usage projection: mean daily total times 30. -/
def monthlyEstimate (df : List DailyEntry) : ℚ := meanTotalEnergy df * 30

/-- Projected monthly cost: the monthly kWh estimate times the fixed
rate of 5. -/
def monthlyCost (df : List DailyEntry) : ℚ := monthlyEstimate df * 5

/-- Energy efficiency score thresholds on the mean total_energy. -/
def efficiency_score (avg_consumption : ℚ) : String :=
  if avg_consumption < 5 then "Excellent ⭐⭐⭐⭐⭐"
  else if avg_consumption < 8 then "Good ⭐⭐⭐⭐"
  else if avg_consumption < 12 then "Average ⭐⭐⭐"
  else "Needs Improvement ⭐⭐"

/-- The last 7 rows of a frame: df.tail(7). -/
def tail7 (df : List DailyEntry) : List DailyEntry := df.drop (df.length - 7)

/-- Mean total_energy over the most recent 7 rows of the sorted frame. -/
def recentWeekMean (df : List DailyEntry) : ℚ := meanTotalEnergy (tail7 df)

/-- Mean total_energy over the earliest 7 rows when at least 14 rows
exist, else the recent-week mean itself. -/
def previousWeekMean (df : List DailyEntry) : ℚ :=
  if 14 ≤ df.length then meanTotalEnergy (df.take 7) else recentWeekMean df

/-- Message appended when recent consumption rose by more than 10%. -/
def increaseMessage : String :=
  "Your energy consumption has increased recently. Check for any new appliances or increased usage"

/-- Message appended when recent consumption fell by more than 10%. -/
def decreaseMessage : String :=
  "Great job! Your energy consumption has decreased recently"

/-- Trend rule of the insights tab: with at least 7 rows, compare the
recent-week mean against the previous-week mean and report an increase
above the 1.1 factor, a decrease below the 0.9 factor, or nothing. -/
def trendRecommendation (df : List DailyEntry) : Option String :=
  if 7 ≤ df.length then
    if recentWeekMean df > previousWeekMean df * 1.1 then some increaseMessage
    else if recentWeekMean df < previousWeekMean df * 0.9 then some decreaseMessage
    else none
  else none

/-- Message of the appliance-heavy rule. -/
def applianceHeavyMessage : String := "Consider upgrading to energy-efficient appliances"

/-- Message of the above-average-consumption rule. -/
def highUsageMessage : String :=
  "Your consumption is above average. Try to reduce AC usage during peak hours"

/-- The four always-appended generic tips, in source order. -/
def genericTips : List String :=
  ["Use natural light during daytime to reduce electricity usage",
   "Set your AC to 24-26°C for optimal efficiency",
   "Unplug devices when not in use to avoid phantom loads",
   "Consider using LED bulbs if you have not already"]

/-- The data-dependent rules of the insights tab, evaluated in source
order: appliance-heavy, above-average consumption, then the trend rule. -/
def triggeredRecommendations (df : List DailyEntry) : List String :=
  (if meanApplianceEnergy df > meanBaseEnergy df * 2 then [applianceHeavyMessage] else []) ++
  (if meanTotalEnergy df > 10 then [highUsageMessage] else []) ++
  (trendRecommendation df).toList

/-- The full recommendations list: triggered rules then generic tips. -/
def recommendationsList (df : List DailyEntry) : List String :=
  triggeredRecommendations df ++ genericTips

/-- The recommendations the page renders: recommendations[:5]. -/
def shownRecommendations (df : List DailyEntry) : List String :=
  (recommendationsList df).take 5

/-- The analytics tab summary: none on an empty frame (the tab renders
an info message instead of computing any statistic), else days tracked,
mean daily total, highest total and the monthly estimate. -/
def analyticsSummary (store : List DailyEntry) : Option (ℕ × ℚ × WithBot ℚ × ℚ) :=
  let df := get_energy_dataframe store
  if df.isEmpty then none
  else some (df.length, meanTotalEnergy df, maxTotalEnergy df, monthlyEstimate df)

/-- The insights tab: none on an empty frame, else the efficiency
score, the shown recommendations, and the monthly projections. -/
def insightsView (store : List DailyEntry) : Option (String × List String × ℚ × ℚ) :=
  let df := get_energy_dataframe store
  if df.isEmpty then none
  else some (efficiency_score (meanTotalEnergy df), shownRecommendations df,
             monthlyEstimate df, monthlyCost df)

/-- The clear-all action: st.session_state.energy_data = []. -/
def clearAllData (_store : List DailyEntry) : List DailyEntry := []

/-! ### Helper lemmas about the calculator -/

theorem foldl_add_consumption (l : List String) (init : ℚ) :
    l.foldl (fun total appliance => total + appliance_consumption appliance) init
      = init + (l.map appliance_consumption).sum := by
  induction l generalizing init with
  | nil => simp
  | cons a l ih => simp [List.foldl_cons, ih, add_assoc]

theorem calculate_appliance_energy_eq_sum (l : List String) :
    calculate_appliance_energy l = (l.map appliance_consumption).sum := by
  have h := foldl_add_consumption l 0
  simpa [calculate_appliance_energy] using h

theorem appliance_consumption_unknown (a : String) (ha : a ∉ applianceCatalog) :
    appliance_consumption a = 0 := by
  simp only [applianceCatalog, List.mem_cons, List.mem_singleton, not_or] at ha
  obtain ⟨h1, h2, h3, h4, h5, h6, h7, h8⟩ := ha
  simp [appliance_consumption, h1, h2, h3, h4, h5, h6, h7, h8]

theorem energy_map_unknown (s : String)
    (h1 : s ≠ "1bhk") (h2 : s ≠ "2bhk") (h3 : s ≠ "3bhk") : energy_map s = 0 := by
  simp [energy_map, h1, h2, h3]

theorem calculate_base_energy_def (t : String) :
    calculate_base_energy t = energy_map (lowerStr t) := rfl

theorem energy_map_1bhk : energy_map "1bhk" = 2.4 := by
  have h : energy_map "1bhk" = 2 * 0.4 + 2 * 0.8 := rfl
  rw [h]; norm_num

theorem energy_map_2bhk : energy_map "2bhk" = 3.6 := by
  have h : energy_map "2bhk" = 3 * 0.4 + 3 * 0.8 := rfl
  rw [h]; norm_num

theorem energy_map_3bhk : energy_map "3bhk" = 4.8 := by
  have h : energy_map "3bhk" = 4 * 0.4 + 4 * 0.8 := rfl
  rw [h]; norm_num

theorem adjust_foldl (us : List (String × ℚ)) (ae : ℚ) :
    adjust_for_usage_hours ae us = ae + usageAdjustment us := by
  induction us generalizing ae with
  | nil => simp [adjust_for_usage_hours, usageAdjustment]
  | cons p us ih =>
    have hstep : adjust_for_usage_hours ae (p :: us)
        = adjust_for_usage_hours
            (if p.1 ∈ adjustableAppliances then
              ae + (base_consumption p.1 * p.2 / 8 - base_consumption p.1)
            else ae) us := rfl
    rw [hstep, ih]
    simp only [usageAdjustment, List.map_cons, List.sum_cons]
    by_cases hp : p.1 ∈ adjustableAppliances
    · simp only [if_pos hp]
      ring
    · simp only [if_neg hp]
      ring

/-! ### Helper lemmas about the record store -/

theorem saveEntry_nil (e : DailyEntry) : saveEntry [] e = [e] := rfl

theorem saveEntry_cons (r : DailyEntry) (rest : List DailyEntry) (e : DailyEntry) :
    saveEntry (r :: rest) e
      = if r.date = e.date then e :: rest else r :: saveEntry rest e := by
  by_cases hd : r.date = e.date
  · simp [saveEntry, save_daily_consumption, findExistingIndex, hd]
  · cases hfind : findExistingIndex e.date rest with
    | none => simp [saveEntry, save_daily_consumption, findExistingIndex, hd, hfind]
    | some i => simp [saveEntry, save_daily_consumption, findExistingIndex, hd, hfind]

theorem saveEntry_eq_saveRec (e : DailyEntry) :
    ∀ store, saveEntry store e = saveRec e store := by
  intro store
  induction store with
  | nil => rfl
  | cons r rest ih => rw [saveEntry_cons, saveRec, ih]

theorem saveRec_dates (e : DailyEntry) (store : List DailyEntry) :
    (saveRec e store).map DailyEntry.date
      = if e.date ∈ store.map DailyEntry.date then store.map DailyEntry.date
        else store.map DailyEntry.date ++ [e.date] := by
  induction store with
  | nil => simp [saveRec]
  | cons r rest ih =>
    by_cases hd : r.date = e.date
    · simp [saveRec, hd]
    · simp only [saveRec, if_neg hd, List.map_cons]
      rw [ih]
      by_cases hm : e.date ∈ rest.map DailyEntry.date
      · simp [hm, Ne.symm hd]
      · simp [hm, Ne.symm hd]

theorem saveRec_nodup (e : DailyEntry) (store : List DailyEntry)
    (h : (store.map DailyEntry.date).Nodup) :
    ((saveRec e store).map DailyEntry.date).Nodup := by
  rw [saveRec_dates]
  by_cases hm : e.date ∈ store.map DailyEntry.date
  · simpa [hm] using h
  · simp [hm, List.nodup_append, h]

theorem runSaves_nodup (es : List DailyEntry) :
    ∀ store, (store.map DailyEntry.date).Nodup →
      ((runSaves store es).map DailyEntry.date).Nodup := by
  induction es with
  | nil => intro store h; exact h
  | cons e es ih =>
    intro store h
    rw [runSaves]
    exact ih _ (by rw [saveEntry_eq_saveRec]; exact saveRec_nodup e store h)

theorem saveRec_dates_toFinset (e : DailyEntry) (store : List DailyEntry) :
    ((saveRec e store).map DailyEntry.date).toFinset
      = insert e.date (store.map DailyEntry.date).toFinset := by
  rw [saveRec_dates]
  by_cases hm : e.date ∈ store.map DailyEntry.date
  · rw [if_pos hm, Finset.insert_eq_self.mpr (List.mem_toFinset.mpr hm)]
  · rw [if_neg hm]
    ext x
    simp [or_comm]

theorem runSaves_dates_toFinset (es : List DailyEntry) :
    ∀ store, ((runSaves store es).map DailyEntry.date).toFinset
      = (store.map DailyEntry.date).toFinset ∪ (es.map DailyEntry.date).toFinset := by
  induction es with
  | nil => intro store; simp [runSaves]
  | cons e es ih =>
    intro store
    rw [runSaves, ih, saveEntry_eq_saveRec, saveRec_dates_toFinset]
    simp [Finset.insert_union, Finset.union_insert]

theorem runSaves_length_eq (es : List DailyEntry) :
    (runSaves [] es).length = ((es.map DailyEntry.date).toFinset).card := by
  have hnd : ((runSaves [] es).map DailyEntry.date).Nodup :=
    runSaves_nodup es [] (by simp)
  have hfin := runSaves_dates_toFinset es []
  simp only [List.map_nil, List.toFinset_nil, Finset.empty_union] at hfin
  calc (runSaves [] es).length
      = ((runSaves [] es).map DailyEntry.date).length := (List.length_map _ _).symm
    _ = ((runSaves [] es).map DailyEntry.date).toFinset.card :=
        (List.toFinset_card_of_nodup hnd).symm
    _ = ((es.map DailyEntry.date).toFinset).card := by rw [hfin]

theorem saveRec_filter_eq (store : List DailyEntry) (e : DailyEntry)
    (h : (store.map DailyEntry.date).Nodup) :
    (saveRec e store).filter (fun r => r.date == e.date) = [e] := by
  induction store with
  | nil => simp [saveRec]
  | cons r rest ih =>
    simp only [List.map_cons, List.nodup_cons] at h
    obtain ⟨hr, hrest⟩ := h
    by_cases hd : r.date = e.date
    · have hnone : rest.filter (fun x => x.date == e.date) = [] := by
        apply List.filter_eq_nil_iff.mpr
        intro x hx
        simp only [beq_iff_eq]
        intro hxe
        exact hr (hd ▸ hxe ▸ List.mem_map_of_mem DailyEntry.date hx)
      simp [saveRec, hd, List.filter_cons, hnone]
    · simp [saveRec, hd, List.filter_cons, ih hrest]

theorem saveRec_append_of_not_mem (e : DailyEntry) (store : List DailyEntry)
    (h : e.date ∉ store.map DailyEntry.date) :
    saveRec e store = store ++ [e] := by
  induction store with
  | nil => rfl
  | cons r rest ih =>
    simp only [List.map_cons, List.mem_cons, not_or] at h
    rw [saveRec, if_neg (fun hd => h.1 hd.symm), ih h.2]
    rfl

/-! ### Claim theorems for the record store -/

/-- C1: starting from the empty store, any sequence of
save_daily_consumption calls keeps the dates duplicate-free; saving
twice with the same date leaves exactly one record under that date and
it carries the second payload in full; saving a date not yet in a
duplicate-free store appends the entry; and the record count never
exceeds the number of distinct dates saved. -/
theorem c1_upsert_per_date (es store : List DailyEntry) (e e1 e2 : DailyEntry)
    (hnd : (store.map DailyEntry.date).Nodup)
    (hnew : e.date ∉ store.map DailyEntry.date)
    (h12 : e1.date = e2.date) :
    ((runSaves [] es).map DailyEntry.date).Nodup ∧
    (saveEntry (saveEntry store e1) e2).filter (fun r => r.date == e1.date) = [e2] ∧
    saveEntry store e = store ++ [e] ∧
    (runSaves [] es).length ≤ ((es.map DailyEntry.date).toFinset).card := by
  refine ⟨runSaves_nodup es [] (by simp), ?_, ?_, le_of_eq (runSaves_length_eq es)⟩
  · rw [h12, saveEntry_eq_saveRec, saveEntry_eq_saveRec]
    exact saveRec_filter_eq _ e2 (saveRec_nodup e1 store hnd)
  · rw [saveEntry_eq_saveRec]
    exact saveRec_append_of_not_mem e store hnew

/-- First concrete record used by the store witnesses. -/
def entryA : DailyEntry :=
  { date := "2024-01-01", base_energy := 2.4, appliance_energy := 3, total_energy := 5.4,
    appliances := ["Refrigerator"], notes := "", timestamp := "t1" }

/-- Second payload for the same date as entryA. -/
def entryA2 : DailyEntry :=
  { date := "2024-01-01", base_energy := 3.6, appliance_energy := 0.5, total_energy := 4.1,
    appliances := ["TV"], notes := "updated", timestamp := "t2" }

/-- Third payload for the same date as entryA. -/
def entryA3 : DailyEntry :=
  { date := "2024-01-01", base_energy := 4.8, appliance_energy := 2, total_energy := 6.8,
    appliances := ["Water Heater"], notes := "again", timestamp := "t3" }

/-- A record under a fresh date. -/
def entryB : DailyEntry :=
  { date := "2024-01-02", base_energy := 2.4, appliance_energy := 0.3, total_energy := 2.7,
    appliances := ["Ceiling Fan"], notes := "", timestamp := "t4" }

/-- C1 witness: one stored record, a same-date double save and a
fresh-date save. -/
theorem c1_upsert_per_date_witness :
    (([entryA].map DailyEntry.date).Nodup ∧
     entryB.date ∉ [entryA].map DailyEntry.date ∧
     entryA2.date = entryA3.date) ∧
    (((runSaves [] [entryA, entryA2, entryB]).map DailyEntry.date).Nodup ∧
     (saveEntry (saveEntry [entryA] entryA2) entryA3).filter
       (fun r => r.date == entryA2.date) = [entryA3] ∧
     saveEntry [entryA] entryB = [entryA] ++ [entryB] ∧
     (runSaves [] [entryA, entryA2, entryB]).length
       ≤ (([entryA, entryA2, entryB].map DailyEntry.date).toFinset).card) :=
  ⟨⟨by decide, by decide, by decide⟩,
   c1_upsert_per_date [entryA, entryA2, entryB] [entryA] entryB entryA2 entryA3
     (by decide) (by decide) (by decide)⟩

/-! ### Claim theorems for the consumption calculator -/

/-- C2: for an adjustable appliance with hours h in [0, 24] the
usage-hour loop adds base_draw * h / 8 - base_draw on top of the flat
appliance energy (stated pointwise and as a sum over all slider pairs),
so h = 8 leaves the energy unchanged and h = 0 removes exactly that
appliance draw; a pair naming a non-adjustable appliance changes
nothing. -/
theorem c2_usage_hour_adjustment (ae : ℚ) (a b : String) (h : ℚ) (us : List (String × ℚ))
    (hmem : a ∈ adjustableAppliances) (hnot : b ∉ adjustableAppliances)
    (h0 : 0 ≤ h) (h24 : h ≤ 24) :
    adjust_for_usage_hours ae us = ae + usageAdjustment us ∧
    adjust_for_usage_hours ae [(a, h)]
      = ae + (base_consumption a * h / 8 - base_consumption a) ∧
    adjust_for_usage_hours ae [(a, 8)] = ae ∧
    adjust_for_usage_hours ae [(a, 0)] = ae - base_consumption a ∧
    adjust_for_usage_hours ae ((b, h) :: us) = adjust_for_usage_hours ae us := by
  have hsingle : ∀ x : ℚ, adjust_for_usage_hours ae [(a, x)]
      = ae + (base_consumption a * x / 8 - base_consumption a) := by
    intro x
    simp [adjust_for_usage_hours, hmem]
  refine ⟨adjust_foldl us ae, hsingle h, ?_, ?_, ?_⟩
  · rw [hsingle 8]; ring
  · rw [hsingle 0]; ring
  · simp only [adjust_for_usage_hours, List.foldl_cons]
    simp [hnot]

/-- C2 witness at AC for 2 hours, with Refrigerator outside the
adjustable subset and a TV slider pair alongside. -/
theorem c2_usage_hour_adjustment_witness :
    ("AC" ∈ adjustableAppliances ∧ "Refrigerator" ∉ adjustableAppliances ∧
      (0 : ℚ) ≤ 2 ∧ (2 : ℚ) ≤ 24) ∧
    (adjust_for_usage_hours 3 [("TV", 4)] = 3 + usageAdjustment [("TV", 4)] ∧
     adjust_for_usage_hours 3 [("AC", 2)]
       = 3 + (base_consumption "AC" * 2 / 8 - base_consumption "AC") ∧
     adjust_for_usage_hours 3 [("AC", 8)] = 3 ∧
     adjust_for_usage_hours 3 [("AC", 0)] = 3 - base_consumption "AC" ∧
     adjust_for_usage_hours 3 (("Refrigerator", 2) :: [("TV", 4)])
       = adjust_for_usage_hours 3 [("TV", 4)]) :=
  ⟨⟨by decide, by decide, by norm_num, by norm_num⟩,
   c2_usage_hour_adjustment 3 "AC" "Refrigerator" 2 [("TV", 4)]
     (by decide) (by decide) (by norm_num) (by norm_num)⟩

/-- C3 (counterexample): the claim sends every string outside the three
enum spellings to 0, but the lookup lowercases its argument, so the
string 1bhk, which differs from all of 1BHK, 2BHK and 3BHK, is mapped
to 2.4 rather than 0. -/
theorem c3_lowercase_counterexample :
    ("1bhk" : String) ≠ "1BHK" ∧ ("1bhk" : String) ≠ "2BHK" ∧ ("1bhk" : String) ≠ "3BHK" ∧
    calculate_base_energy "1bhk" = 2.4 ∧ (2.4 : ℚ) ≠ 0 := by
  refine ⟨by decide, by decide, by decide, ?_, by norm_num⟩
  rw [calculate_base_energy_def, show lowerStr "1bhk" = "1bhk" from by decide]
  exact energy_map_1bhk

/-- C3 (amended): calculate_base_energy sends the enum spellings 1BHK,
2BHK and 3BHK to 2.4, 3.6 and 4.8, and any string whose lowercasing is
none of the keys 1bhk, 2bhk, 3bhk to 0. -/
theorem c3_base_energy_table (s : String)
    (h1 : lowerStr s ≠ "1bhk") (h2 : lowerStr s ≠ "2bhk") (h3 : lowerStr s ≠ "3bhk") :
    calculate_base_energy "1BHK" = 2.4 ∧
    calculate_base_energy "2BHK" = 3.6 ∧
    calculate_base_energy "3BHK" = 4.8 ∧
    calculate_base_energy s = 0 := by
  refine ⟨?_, ?_, ?_, ?_⟩
  · rw [calculate_base_energy_def, show lowerStr "1BHK" = "1bhk" from by decide]
    exact energy_map_1bhk
  · rw [calculate_base_energy_def, show lowerStr "2BHK" = "2bhk" from by decide]
    exact energy_map_2bhk
  · rw [calculate_base_energy_def, show lowerStr "3BHK" = "3bhk" from by decide]
    exact energy_map_3bhk
  · rw [calculate_base_energy_def]
    exact energy_map_unknown _ h1 h2 h3

/-- C3 witness at the unknown dwelling string Studio. -/
theorem c3_base_energy_table_witness :
    (lowerStr "Studio" ≠ "1bhk" ∧ lowerStr "Studio" ≠ "2bhk" ∧ lowerStr "Studio" ≠ "3bhk") ∧
    (calculate_base_energy "1BHK" = 2.4 ∧
     calculate_base_energy "2BHK" = 3.6 ∧
     calculate_base_energy "3BHK" = 4.8 ∧
     calculate_base_energy "Studio" = 0) :=
  ⟨⟨by decide, by decide, by decide⟩,
   c3_base_energy_table "Studio" (by decide) (by decide) (by decide)⟩

/-- C4: appliance energy is the sum of the catalog draws of the listed
appliances, the empty selection gives 0, an unknown name contributes 0,
and the catalog holds the eight fixed draws. -/
theorem c4_appliance_energy_sum (S : List String) (a : String) (ha : a ∉ applianceCatalog) :
    calculate_appliance_energy [] = 0 ∧
    calculate_appliance_energy S = (S.map appliance_consumption).sum ∧
    calculate_appliance_energy (a :: S) = calculate_appliance_energy S ∧
    applianceCatalog.map appliance_consumption = [3.0, 3.0, 3.0, 0.5, 1.5, 2.0, 2.5, 0.3] := by
  refine ⟨by simp [calculate_appliance_energy], calculate_appliance_energy_eq_sum S, ?_, rfl⟩
  rw [calculate_appliance_energy_eq_sum, calculate_appliance_energy_eq_sum,
    List.map_cons, List.sum_cons, appliance_consumption_unknown a ha, zero_add]

/-- C4 witness on the selection [AC, TV] with the unknown name Toaster. -/
theorem c4_appliance_energy_sum_witness :
    ("Toaster" ∉ applianceCatalog) ∧
    (calculate_appliance_energy [] = 0 ∧
     calculate_appliance_energy ["AC", "TV"]
       = ((["AC", "TV"] : List String).map appliance_consumption).sum ∧
     calculate_appliance_energy ("Toaster" :: ["AC", "TV"])
       = calculate_appliance_energy ["AC", "TV"] ∧
     applianceCatalog.map appliance_consumption = [3.0, 3.0, 3.0, 0.5, 1.5, 2.0, 2.5, 0.3]) :=
  ⟨by decide, c4_appliance_energy_sum ["AC", "TV"] "Toaster" (by decide)⟩

/-- C5: the efficiency score thresholds are exact and non-overlapping:
below 5 Excellent, in [5, 8) Good, in [8, 12) Average, from 12 on Needs
Improvement, including the boundary inputs 4.999, 5, 7.999, 8, 11.999
and 12. -/
theorem c5_efficiency_boundaries (x : ℚ) :
    (x < 5 → efficiency_score x = "Excellent ⭐⭐⭐⭐⭐") ∧
    (5 ≤ x → x < 8 → efficiency_score x = "Good ⭐⭐⭐⭐") ∧
    (8 ≤ x → x < 12 → efficiency_score x = "Average ⭐⭐⭐") ∧
    (12 ≤ x → efficiency_score x = "Needs Improvement ⭐⭐") ∧
    efficiency_score 4.999 = "Excellent ⭐⭐⭐⭐⭐" ∧
    efficiency_score 5 = "Good ⭐⭐⭐⭐" ∧
    efficiency_score 7.999 = "Good ⭐⭐⭐⭐" ∧
    efficiency_score 8 = "Average ⭐⭐⭐" ∧
    efficiency_score 11.999 = "Average ⭐⭐⭐" ∧
    efficiency_score 12 = "Needs Improvement ⭐⭐" := by
  refine ⟨?_, ?_, ?_, ?_, ?_, ?_, ?_, ?_, ?_, ?_⟩
  · intro h5
    simp [efficiency_score, h5]
  · intro h5 h8
    simp [efficiency_score, not_lt.mpr h5, h8]
  · intro h8 h12
    have h5 : ¬ x < 5 := not_lt.mpr (le_trans (by norm_num) h8)
    simp [efficiency_score, h5, not_lt.mpr h8, h12]
  · intro h12
    have h5 : ¬ x < 5 := not_lt.mpr (le_trans (by norm_num) h12)
    have h8 : ¬ x < 8 := not_lt.mpr (le_trans (by norm_num) h12)
    simp [efficiency_score, h5, h8, not_lt.mpr h12]
  · norm_num [efficiency_score]
  · norm_num [efficiency_score]
  · norm_num [efficiency_score]
  · norm_num [efficiency_score]
  · norm_num [efficiency_score]
  · norm_num [efficiency_score]

/-- C5 witness touching each of the four bands. -/
theorem c5_efficiency_boundaries_witness :
    ((3 : ℚ) < 5 ∧ efficiency_score 3 = "Excellent ⭐⭐⭐⭐⭐") ∧
    ((5 : ℚ) ≤ 6 ∧ (6 : ℚ) < 8 ∧ efficiency_score 6 = "Good ⭐⭐⭐⭐") ∧
    ((8 : ℚ) ≤ 9 ∧ (9 : ℚ) < 12 ∧ efficiency_score 9 = "Average ⭐⭐⭐") ∧
    ((12 : ℚ) ≤ 13 ∧ efficiency_score 13 = "Needs Improvement ⭐⭐") :=
  ⟨⟨by norm_num, (c5_efficiency_boundaries 3).1 (by norm_num)⟩,
   ⟨by norm_num, by norm_num, (c5_efficiency_boundaries 6).2.1 (by norm_num) (by norm_num)⟩,
   ⟨by norm_num, by norm_num, (c5_efficiency_boundaries 9).2.2.1 (by norm_num) (by norm_num)⟩,
   ⟨by norm_num, (c5_efficiency_boundaries 13).2.2.2.1 (by norm_num)⟩⟩

/-- C10: the base-energy lookup is total and case-insensitive: every
string is looked up lowercased in the table, any casing of the three
keys yields its table value, and every other string yields 0. -/
theorem c10_case_insensitive_lookup (s : String)
    (h1 : lowerStr s ≠ "1bhk") (h2 : lowerStr s ≠ "2bhk") (h3 : lowerStr s ≠ "3bhk") :
    (∀ t : String, calculate_base_energy t = energy_map (lowerStr t)) ∧
    calculate_base_energy "1bhk" = 2.4 ∧
    calculate_base_energy "1BhK" = 2.4 ∧
    calculate_base_energy "1BHK" = 2.4 ∧
    calculate_base_energy "2bHk" = 3.6 ∧
    calculate_base_energy "2BHK" = 3.6 ∧
    calculate_base_energy "3bhK" = 4.8 ∧
    calculate_base_energy "3BHK" = 4.8 ∧
    calculate_base_energy s = 0 := by
  refine ⟨fun t => calculate_base_energy_def t, ?_, ?_, ?_, ?_, ?_, ?_, ?_, ?_⟩
  · rw [calculate_base_energy_def, show lowerStr "1bhk" = "1bhk" from by decide]
    exact energy_map_1bhk
  · rw [calculate_base_energy_def, show lowerStr "1BhK" = "1bhk" from by decide]
    exact energy_map_1bhk
  · rw [calculate_base_energy_def, show lowerStr "1BHK" = "1bhk" from by decide]
    exact energy_map_1bhk
  · rw [calculate_base_energy_def, show lowerStr "2bHk" = "2bhk" from by decide]
    exact energy_map_2bhk
  · rw [calculate_base_energy_def, show lowerStr "2BHK" = "2bhk" from by decide]
    exact energy_map_2bhk
  · rw [calculate_base_energy_def, show lowerStr "3bhK" = "3bhk" from by decide]
    exact energy_map_3bhk
  · rw [calculate_base_energy_def, show lowerStr "3BHK" = "3bhk" from by decide]
    exact energy_map_3bhk
  · rw [calculate_base_energy_def]
    exact energy_map_unknown _ h1 h2 h3

/-- C10 witness at the unknown dwelling string Penthouse. -/
theorem c10_case_insensitive_lookup_witness :
    (lowerStr "Penthouse" ≠ "1bhk" ∧ lowerStr "Penthouse" ≠ "2bhk" ∧
      lowerStr "Penthouse" ≠ "3bhk") ∧
    ((∀ t : String, calculate_base_energy t = energy_map (lowerStr t)) ∧
     calculate_base_energy "1bhk" = 2.4 ∧
     calculate_base_energy "1BhK" = 2.4 ∧
     calculate_base_energy "1BHK" = 2.4 ∧
     calculate_base_energy "2bHk" = 3.6 ∧
     calculate_base_energy "2BHK" = 3.6 ∧
     calculate_base_energy "3bhK" = 4.8 ∧
     calculate_base_energy "3BHK" = 4.8 ∧
     calculate_base_energy "Penthouse" = 0) :=
  ⟨⟨by decide, by decide, by decide⟩,
   c10_case_insensitive_lookup "Penthouse" (by decide) (by decide) (by decide)⟩

/-! ### Helper lemmas about the analytics pipeline -/

theorem get_energy_dataframe_perm (store : List DailyEntry) :
    List.Perm (get_energy_dataframe store) store := by
  unfold get_energy_dataframe
  by_cases h : store.isEmpty = true
  · have hnil : store = [] := by simpa using h
    simp [hnil]
  · rw [if_neg h]
    exact List.perm_insertionSort _ store

theorem perm_maximum (l p : List ℚ) (h : List.Perm l p) : l.maximum = p.maximum := by
  apply le_antisymm
  · cases hm : l.maximum with
    | bot => exact bot_le
    | coe m => exact List.le_maximum_of_mem' (h.mem_iff.mp (List.maximum_mem hm))
  · cases hm : p.maximum with
    | bot => exact bot_le
    | coe m => exact List.le_maximum_of_mem' (h.mem_iff.mpr (List.maximum_mem hm))

theorem triggeredRecommendations_length_le (df : List DailyEntry) :
    (triggeredRecommendations df).length ≤ 3 := by
  unfold triggeredRecommendations
  split_ifs <;> cases htr : trendRecommendation df <;> simp [htr]

/-! ### Claim theorems for analytics and insights -/

/-- C6: with at least 7 rows the trend rule compares the mean of the
last 7 rows of the date-ascending frame against the mean of the first 7
rows (against the recent window itself when fewer than 14 rows exist),
announces an increase exactly when the recent mean exceeds the earlier
mean by more than 10%, a decrease exactly when it is more than 10%
lower, and stays silent when stable or when fewer than 7 rows exist. -/
theorem c6_trend_comparison (df short : List DailyEntry)
    (h7 : 7 ≤ df.length) (hshort : (get_energy_dataframe short).length < 7) :
    (trendRecommendation df = some increaseMessage ↔
      recentWeekMean df > previousWeekMean df * 1.1) ∧
    (trendRecommendation df = some decreaseMessage ↔
      (¬ recentWeekMean df > previousWeekMean df * 1.1 ∧
        recentWeekMean df < previousWeekMean df * 0.9)) ∧
    (trendRecommendation df = none ↔
      (¬ recentWeekMean df > previousWeekMean df * 1.1 ∧
        ¬ recentWeekMean df < previousWeekMean df * 0.9)) ∧
    recentWeekMean df = meanTotalEnergy (df.drop (df.length - 7)) ∧
    (df.length < 14 → previousWeekMean df = recentWeekMean df) ∧
    (14 ≤ df.length → previousWeekMean df = meanTotalEnergy (df.take 7)) ∧
    trendRecommendation (get_energy_dataframe short) = none := by
  have hstrings : increaseMessage ≠ decreaseMessage := by decide
  have ht : trendRecommendation df
      = if recentWeekMean df > previousWeekMean df * 1.1 then some increaseMessage
        else if recentWeekMean df < previousWeekMean df * 0.9 then some decreaseMessage
        else none := by
    rw [trendRecommendation, if_pos h7]
  refine ⟨?_, ?_, ?_, rfl, ?_, ?_, ?_⟩
  · by_cases hA : recentWeekMean df > previousWeekMean df * 1.1
    · simp [ht, hA]
    · by_cases hB : recentWeekMean df < previousWeekMean df * 0.9 <;>
        simp [ht, hA, hB, Ne.symm hstrings]
  · by_cases hA : recentWeekMean df > previousWeekMean df * 1.1
    · simp [ht, hA, hstrings]
    · by_cases hB : recentWeekMean df < previousWeekMean df * 0.9 <;>
        simp [ht, hA, hB]
  · by_cases hA : recentWeekMean df > previousWeekMean df * 1.1
    · simp [ht, hA]
    · by_cases hB : recentWeekMean df < previousWeekMean df * 0.9 <;>
        simp [ht, hA, hB]
  · intro hlt
    rw [previousWeekMean, if_neg (not_le.mpr hlt)]
  · intro h14
    rw [previousWeekMean, if_pos h14]
  · rw [trendRecommendation, if_neg (not_le.mpr hshort)]

/-- Builds the record a daily save of the given total produces, used
to populate concrete stores in the witnesses. -/
def mkDay (d : String) (total : ℚ) : DailyEntry :=
  { date := d, base_energy := 2.4, appliance_energy := total - 2.4, total_energy := total,
    appliances := [], notes := "", timestamp := "t" }

/-- Seven consecutive days with totals 4, 5, 6, 5, 4, 6, 5. -/
def week1 : List DailyEntry :=
  [mkDay "2024-01-01" 4, mkDay "2024-01-02" 5, mkDay "2024-01-03" 6,
   mkDay "2024-01-04" 5, mkDay "2024-01-05" 4, mkDay "2024-01-06" 6,
   mkDay "2024-01-07" 5]

/-- C6 witness on a 7-record frame and the empty store. -/
theorem c6_trend_comparison_witness :
    (7 ≤ week1.length ∧ (get_energy_dataframe []).length < 7) ∧
    ((trendRecommendation week1 = some increaseMessage ↔
       recentWeekMean week1 > previousWeekMean week1 * 1.1) ∧
     (trendRecommendation week1 = some decreaseMessage ↔
       (¬ recentWeekMean week1 > previousWeekMean week1 * 1.1 ∧
         recentWeekMean week1 < previousWeekMean week1 * 0.9)) ∧
     (trendRecommendation week1 = none ↔
       (¬ recentWeekMean week1 > previousWeekMean week1 * 1.1 ∧
         ¬ recentWeekMean week1 < previousWeekMean week1 * 0.9)) ∧
     recentWeekMean week1 = meanTotalEnergy (week1.drop (week1.length - 7)) ∧
     (week1.length < 14 → previousWeekMean week1 = recentWeekMean week1) ∧
     (14 ≤ week1.length → previousWeekMean week1 = meanTotalEnergy (week1.take 7)) ∧
     trendRecommendation (get_energy_dataframe []) = none) :=
  ⟨⟨by decide, by decide⟩, c6_trend_comparison week1 [] (by decide) (by decide)⟩

/-- C7: the surfaced recommendation list is the 5-element truncation of
the triggered rules followed by the four generic tips, so at most 5 are
shown, the generic tips fill the remaining slots, and with no rule
triggered exactly the four generic tips appear. -/
theorem c7_first_five (df : List DailyEntry) :
    recommendationsList df = triggeredRecommendations df ++ genericTips ∧
    shownRecommendations df = (triggeredRecommendations df ++ genericTips).take 5 ∧
    (shownRecommendations df).length = min ((triggeredRecommendations df).length + 4) 5 ∧
    (shownRecommendations df).length ≤ 5 ∧
    genericTips.length = 4 ∧
    (triggeredRecommendations df).length ≤ 3 ∧
    (triggeredRecommendations df = [] → shownRecommendations df = genericTips) := by
  refine ⟨rfl, rfl, ?_, ?_, rfl, triggeredRecommendations_length_le df, ?_⟩
  · simp [shownRecommendations, recommendationsList, List.length_take, genericTips, min_comm]
  · show ((recommendationsList df).take 5).length ≤ 5
    exact List.length_take_le 5 (recommendationsList df)
  · intro h
    rw [shownRecommendations, recommendationsList, h, List.nil_append]
    rfl

/-- C7 witness on the empty frame, where no rule triggers. -/
theorem c7_first_five_witness :
    (triggeredRecommendations [] = []) ∧ (shownRecommendations [] = genericTips) :=
  have h : triggeredRecommendations ([] : List DailyEntry) = [] := by
    norm_num [triggeredRecommendations, meanApplianceEnergy, meanBaseEnergy,
      meanTotalEnergy, totalEnergies, trendRecommendation]
  ⟨h, (c7_first_five []).2.2.2.2.2.2 h⟩

/-- C8: over a populated store, days tracked is the record count, the
average daily consumption is the arithmetic mean of total_energy over
the stored records, the highest consumption is their maximum, the
monthly estimate is the mean times 30, the projected monthly cost is
the estimate times the fixed rate 5, and the daily estimated cost is
total_energy times 5. -/
theorem c8_summary_outputs (store : List DailyEntry) (h : store ≠ []) :
    (get_energy_dataframe store).length = store.length ∧
    meanTotalEnergy (get_energy_dataframe store)
      = (store.map DailyEntry.total_energy).sum / store.length ∧
    maxTotalEnergy (get_energy_dataframe store)
      = (store.map DailyEntry.total_energy).maximum ∧
    monthlyEstimate (get_energy_dataframe store)
      = meanTotalEnergy (get_energy_dataframe store) * 30 ∧
    monthlyCost (get_energy_dataframe store)
      = meanTotalEnergy (get_energy_dataframe store) * 30 * 5 ∧
    ∀ t : ℚ, estimatedDailyCost t = t * 5 := by
  have hp := get_energy_dataframe_perm store
  refine ⟨hp.length_eq, ?_, ?_, rfl, rfl, fun t => rfl⟩
  · rw [meanTotalEnergy, totalEnergies,
      (hp.map DailyEntry.total_energy).sum_eq, hp.length_eq]
  · rw [maxTotalEnergy, totalEnergies]
    exact perm_maximum _ _ (hp.map DailyEntry.total_energy)

/-- C8 witness on a one-record store. -/
theorem c8_summary_outputs_witness :
    ([entryA] ≠ ([] : List DailyEntry)) ∧
    ((get_energy_dataframe [entryA]).length = [entryA].length ∧
     meanTotalEnergy (get_energy_dataframe [entryA])
       = ([entryA].map DailyEntry.total_energy).sum / [entryA].length ∧
     maxTotalEnergy (get_energy_dataframe [entryA])
       = ([entryA].map DailyEntry.total_energy).maximum ∧
     monthlyEstimate (get_energy_dataframe [entryA])
       = meanTotalEnergy (get_energy_dataframe [entryA]) * 30 ∧
     monthlyCost (get_energy_dataframe [entryA])
       = meanTotalEnergy (get_energy_dataframe [entryA]) * 30 * 5 ∧
     ∀ t : ℚ, estimatedDailyCost t = t * 5) :=
  ⟨by decide, c8_summary_outputs [entryA] (by decide)⟩

/-- C9: the analytics and insights paths report a no-data state on the
empty store instead of computing any statistic, and the clear action
unconditionally empties the store, after which the count is 0 and both
paths again report no data. -/
theorem c9_empty_and_clear (store : List DailyEntry) :
    analyticsSummary [] = none ∧
    insightsView [] = none ∧
    get_energy_dataframe [] = [] ∧
    clearAllData store = [] ∧
    (clearAllData store).length = 0 ∧
    analyticsSummary (clearAllData store) = none ∧
    insightsView (clearAllData store) = none :=
  ⟨rfl, rfl, rfl, rfl, rfl, rfl, rfl⟩

end EnergySaver
